import Mathlib

/-
  Shallow embedding of the correlation / anomaly-scoring / alert-dispatch
  pipeline of the monitoring-platform repository.

  Sources embedded:
  - src/correlator/correlate.py                 (correlate)
  - src/anomaly-detector/detect.py              (detect_anomalies)
  - src/main_processor_enhanced.py              (CorrelationEngine.correlate_datasets,
                                                 AnomalyDetectionEngine.detect_anomalies_batch,
                                                 _calculate_severity, _calculate_confidence,
                                                 AlertManager._should_send_alert,
                                                 AlertManager._update_alert_history)
  - src/alerting-system/alert.py                (AlertingSystem.send_alert, _send_to_channel,
                                                 _send_email, _send_slack, _send_webhook,
                                                 _send_sms, _get_default_channels,
                                                 _is_rate_limited, _track_sent_alert)

  Numeric fields that are Python floats are modelled as rationals; machine
  timestamps are integers.  Optional dictionary fields are Option values and
  Python truthiness tests on them are made explicit (None, 0 and the empty
  string are falsy).  Wall-clock reads (time.time, get_current_timestamp) are
  threaded as explicit arguments.  Dictionaries used as insertion-ordered
  key/value stores are association lists with unique keys maintained by a
  replace-or-append insert.
-/

namespace MonitoringPlatform

/-- Python truthiness of an optional integer field: None and 0 are falsy. -/
def truthyInt : Option Int → Bool
  | none => false
  | some t => t != 0

/-- Python truthiness of an optional string field: None and the empty string are falsy. -/
def truthyStr : Option String → Bool
  | none => false
  | some s => s != ""

/-- Python truthiness of an optional numeric field: None and 0 are falsy. -/
def truthyQ : Option ℚ → Bool
  | none => false
  | some q => q != 0

/-- A row of hyphenmon_metrics as consumed by the pipeline (seriesB record). -/
structure HyphenmonRecord where
  timestamp : Option Int
  response_time_ms : Option ℚ
  error_rate : Option ℚ
deriving DecidableEq, Repr

/-- A row of zabbix_items as consumed by the pipeline (seriesA record). -/
structure ZabbixRecord where
  lastclock : Option Int
  lastvalue : Option String
deriving DecidableEq, Repr

/-- src/correlator/correlate.py, correlate: the caller passes a singleton list
for the zabbix side; lastclock defaults to 0 when absent; reading the
timestamp key of a record lacking it raises, which the caller catches and
treats as no correlation, so that path is folded into the none result here.
The 10-second tolerance is hard-coded in the source. -/
def correlate (zabbix_data : ZabbixRecord) (hyphenmon_data : HyphenmonRecord) :
    Option (ZabbixRecord × HyphenmonRecord) :=
  let z_ts : Int := zabbix_data.lastclock.getD 0
  match hyphenmon_data.timestamp with
  | none => none
  | some h_ts =>
    if |z_ts - h_ts| ≤ 10 then some (zabbix_data, hyphenmon_data) else none

/-- The dictionary built by CorrelationEngine.correlate_datasets from the
result of correlate plus the correlation_timestamp and correlation_window
keys it adds. -/
structure CorrelatedRecord where
  zabbix : ZabbixRecord
  hyphenmon : HyphenmonRecord
  correlation_timestamp : Int
  correlation_window : Int
deriving DecidableEq, Repr

/-- src/main_processor_enhanced.py lines 193-216,
CorrelationEngine.correlate_datasets: for each hyphenmon record with a truthy
timestamp, collect the zabbix records with a truthy lastclock within the
configured window, then call correlate on each match and keep the truthy
(non-empty) results, stamping them with the wall clock and the window. -/
def correlate_datasets (correlation_window : Int) (now : Int)
    (zabbix_data : List ZabbixRecord) (hyphenmon_data : List HyphenmonRecord) :
    List CorrelatedRecord :=
  hyphenmon_data.flatMap (fun h_data =>
    if truthyInt h_data.timestamp then
      let h_ts : Int := h_data.timestamp.getD 0
      let matching_zabbix := zabbix_data.filter (fun z_data =>
        truthyInt z_data.lastclock &&
          decide (|z_data.lastclock.getD 0 - h_ts| ≤ correlation_window))
      matching_zabbix.filterMap (fun z_match =>
        (correlate z_match h_data).map (fun zh =>
          { zabbix := zh.1, hyphenmon := zh.2,
            correlation_timestamp := now, correlation_window := correlation_window }))
    else [])

/-- src/anomaly-detector/detect.py, detect_anomalies: one rule, firing when
the error_rate of the hyphenmon side (default 0) exceeds 0.5. -/
def detect_anomalies (correlated_data : CorrelatedRecord) : List String :=
  if correlated_data.hyphenmon.error_rate.getD 0 > (1/2 : ℚ) then
    ["High error rate in app!"]
  else []

/-- src/main_processor_enhanced.py lines 302-314,
AnomalyDetectionEngine._calculate_severity: strict threshold bands over the
error_rate of the hyphenmon side (default 0).  The alerts argument is unused
in the source as well. -/
def calculate_severity (record : CorrelatedRecord) (_alerts : List String) : String :=
  if record.hyphenmon.error_rate.getD 0 > (4/5 : ℚ) then "CRITICAL"
  else if record.hyphenmon.error_rate.getD 0 > (3/5 : ℚ) then "HIGH"
  else if record.hyphenmon.error_rate.getD 0 > (2/5 : ℚ) then "MEDIUM"
  else "LOW"

/-- src/main_processor_enhanced.py lines 316-332,
AnomalyDetectionEngine._calculate_confidence: base 0.5, plus 0.2 for a truthy
response_time_ms, plus 0.2 for a truthy lastvalue, plus 0.1 when the stamped
correlation_window is at most 5, clamped to 1. -/
def calculate_confidence (record : CorrelatedRecord) : ℚ :=
  min ((1/2)
    + (if truthyQ record.hyphenmon.response_time_ms then 1/5 else 0)
    + (if truthyStr record.zabbix.lastvalue then 1/5 else 0)
    + (if record.correlation_window ≤ 5 then 1/10 else 0)) 1

/-- The anomaly dictionary built by detect_anomalies_batch. -/
structure AnomalyResult where
  timestamp : Int
  correlated_data : CorrelatedRecord
  alerts : List String
  severity : String
  confidence : ℚ
deriving DecidableEq, Repr

/-- src/main_processor_enhanced.py lines 249-300,
AnomalyDetectionEngine.detect_anomalies_batch: per record, run
detect_anomalies and emit a result only when the alert list is truthy
(non-empty); the timestamp is the wall clock at creation. -/
def detect_anomalies_batch (now : Int) (correlated_data : List CorrelatedRecord) :
    List AnomalyResult :=
  correlated_data.filterMap (fun record =>
    let alerts := detect_anomalies record
    if alerts.isEmpty then none
    else some { timestamp := now, correlated_data := record, alerts := alerts,
                severity := calculate_severity record alerts,
                confidence := calculate_confidence record })

/-- The de-duplication key both AlertManager throttle methods build with an
f-string from severity and timestamp. -/
def alert_key (anomaly : AnomalyResult) : String :=
  anomaly.severity ++ "_" ++ toString anomaly.timestamp

/-- Membership of a key in the alert-history dictionary. -/
def hasKey (alert_history : List (String × Int)) (key : String) : Bool :=
  alert_history.any (fun entry => entry.1 == key)

/-- src/main_processor_enhanced.py lines 401-419, AlertManager._should_send_alert:
reject confidence below 0.3, always admit CRITICAL, otherwise reject exactly
when the severity_timestamp key is already in the history.  The severity and
confidence fields are always present on pipeline-produced anomalies, so the
dictionary defaults of the source are never consulted. -/
def should_send_alert (alert_history : List (String × Int)) (anomaly : AnomalyResult) : Bool :=
  if anomaly.confidence < (3/10 : ℚ) then false
  else if anomaly.severity == "CRITICAL" then true
  else if hasKey alert_history (alert_key anomaly) then false
  else true

/-- A Python dictionary assignment on an insertion-ordered association list
with unique keys: replace in place when the key is present, append
otherwise. -/
def dictUpsert {α : Type} (d : List (String × α)) (key : String) (val : α) :
    List (String × α) :=
  if d.any (fun e => e.1 == key) then
    d.map (fun e => if e.1 == key then (key, val) else e)
  else d ++ [(key, val)]

/-- A Python dictionary read on an association list. -/
def dictFind {α : Type} (d : List (String × α)) (key : String) : Option α :=
  (d.find? (fun e => e.1 == key)).map Prod.snd

/-- Lexicographic comparison of character lists by code point, the order
Python applies to strings. -/
def charListLt : List Char → List Char → Bool
  | [], [] => false
  | [], _ :: _ => true
  | _ :: _, [] => false
  | a :: as, b :: bs =>
    if a.toNat < b.toNat then true
    else if b.toNat < a.toNat then false
    else charListLt as bs

/-- String order as Python compares dictionary keys: not strictly above. -/
def pyStrLe (a b : String) : Bool := !(charListLt b.data a.data)

/-- Stable insertion into an ascending list. -/
def sortedInsert (x : String) : List String → List String
  | [] => [x]
  | y :: ys => if pyStrLe x y then x :: y :: ys else y :: sortedInsert x ys

/-- The builtin ascending string sort applied to the history keys. -/
def pySorted : List String → List String
  | [] => []
  | x :: xs => sortedInsert x (pySorted xs)

/-- src/main_processor_enhanced.py lines 451-462, AlertManager._update_alert_history:
record the key with the current wall-clock time; when the history exceeds 100
entries, sort the keys as strings and delete all but the last 100 of that
sorted order. -/
def update_alert_history (alert_history : List (String × Int)) (now : Int)
    (anomaly : AnomalyResult) : List (String × Int) :=
  let key := alert_key anomaly
  let h := dictUpsert alert_history key now
  if h.length > 100 then
    let sorted_keys := pySorted (h.map Prod.fst)
    let doomed := sorted_keys.take (sorted_keys.length - 100)
    h.filter (fun e => !(doomed.contains e.1))
  else h

/-- src/alerting-system/alert.py, AlertChannel enum. -/
inductive AlertChannel
  | email
  | slack
  | webhook
  | sms
deriving DecidableEq, Repr

/-- The wire value of a channel (the enum value the source keys result
dictionaries by). -/
def AlertChannel.value : AlertChannel → String
  | .email => "email"
  | .slack => "slack"
  | .webhook => "webhook"
  | .sms => "sms"

/-- src/alerting-system/alert.py, AlertSeverity enum. -/
inductive AlertSeverity
  | critical
  | high
  | medium
  | low
  | info
deriving DecidableEq, Repr

/-- The per-channel enabled flags of the alerting configuration consumed by
the dispatcher. -/
structure AlertConfig where
  email_enabled : Bool
  slack_enabled : Bool
  webhook_enabled : Bool
deriving DecidableEq, Repr

/-- src/alerting-system/alert.py, Alert dataclass (the fields the dispatch
logic reads; message and metadata only feed channel rendering). -/
structure Alert where
  title : String
  message : String
  severity : AlertSeverity
  source : String
  timestamp : ℚ
deriving DecidableEq, Repr

/-- The per-channel result dictionary: success flag plus an error string on
failure or an informational message on success. -/
structure DeliveryResult where
  success : Bool
  error : Option String
  message : Option String
deriving DecidableEq, Repr

/-- src/alerting-system/alert.py lines 169-202, _send_email: a disabled
channel returns a failure result without touching the transport; otherwise
the SMTP session either completes or raises, and the raise is caught into a
failure result.  The transport outcome stands for that session. -/
def send_email (cfg : AlertConfig) (transport : Except String Unit) : DeliveryResult :=
  if !cfg.email_enabled then
    { success := false, error := some "Email not configured", message := none }
  else
    match transport with
    | .ok _ => { success := true, error := none, message := some "Email sent successfully" }
    | .error e => { success := false, error := some e, message := none }

/-- src/alerting-system/alert.py lines 204-225, _send_slack. -/
def send_slack (cfg : AlertConfig) (transport : Except String Unit) : DeliveryResult :=
  if !cfg.slack_enabled then
    { success := false, error := some "Slack not configured", message := none }
  else
    match transport with
    | .ok _ => { success := true, error := none, message := some "Slack message sent successfully" }
    | .error e => { success := false, error := some e, message := none }

/-- src/alerting-system/alert.py lines 227-249, _send_webhook. -/
def send_webhook (cfg : AlertConfig) (transport : Except String Unit) : DeliveryResult :=
  if !cfg.webhook_enabled then
    { success := false, error := some "Webhook not configured", message := none }
  else
    match transport with
    | .ok _ => { success := true, error := none, message := some "Webhook sent successfully" }
    | .error e => { success := false, error := some e, message := none }

/-- src/alerting-system/alert.py lines 251-257, _send_sms: unconditional stub
failure. -/
def send_sms (_alert : Alert) : DeliveryResult :=
  { success := false, error := some "SMS integration not implemented", message := none }

/-- src/alerting-system/alert.py lines 156-167, _send_to_channel: dispatch on
the channel kind.  The transport argument gives the outcome of the one
network interaction an enabled channel performs. -/
def send_to_channel (cfg : AlertConfig) (transport : AlertChannel → Except String Unit)
    (alert : Alert) (channel : AlertChannel) : DeliveryResult :=
  match channel with
  | .email => send_email cfg (transport .email)
  | .slack => send_slack cfg (transport .slack)
  | .webhook => send_webhook cfg (transport .webhook)
  | .sms => send_sms alert

/-- src/alerting-system/alert.py lines 398-416, _get_default_channels:
email for every severity, slack from medium up, webhook from high up, each
only when enabled. -/
def get_default_channels (cfg : AlertConfig) (severity : AlertSeverity) : List AlertChannel :=
  (if cfg.email_enabled then [AlertChannel.email] else [])
  ++ (if cfg.slack_enabled &&
        [AlertSeverity.critical, AlertSeverity.high, AlertSeverity.medium].contains severity then
        [AlertChannel.slack] else [])
  ++ (if cfg.webhook_enabled &&
        [AlertSeverity.critical, AlertSeverity.high].contains severity then
        [AlertChannel.webhook] else [])

/-- The rate-limit window hard-coded in AlertingSystem.__init__ (seconds). -/
def rate_limit_window : ℚ := 300

/-- The source_title rate-limit key built with an f-string. -/
def sent_alert_key (alert : Alert) : String :=
  alert.source ++ "_" ++ alert.title

/-- src/alerting-system/alert.py lines 418-428, _is_rate_limited: limited
exactly when the key was recorded less than rate_limit_window seconds ago. -/
def is_rate_limited (sent_alerts : List (String × ℚ)) (current_time : ℚ) (alert : Alert) : Bool :=
  match dictFind sent_alerts (sent_alert_key alert) with
  | some last_sent => decide (current_time - last_sent < rate_limit_window)
  | none => false

/-- src/alerting-system/alert.py lines 430-440, _track_sent_alert: record the
key at the current time, then rebuild the dictionary keeping only entries
younger than twice the rate-limit window. -/
def track_sent_alert (sent_alerts : List (String × ℚ)) (current_time : ℚ) (alert : Alert) :
    List (String × ℚ) :=
  let updated := dictUpsert sent_alerts (sent_alert_key alert) current_time
  updated.filter (fun e => decide (current_time - e.2 < rate_limit_window * 2))

/-- The aggregate dictionary send_alert returns.  In the rate-limited early
return the source supplies only rate_limited and channels; the remaining
fields then hold their would-be-absent defaults. -/
structure SendAlertResult where
  rate_limited : Bool
  channels : List (String × DeliveryResult)
  success : Bool
  total_sent : Nat
deriving DecidableEq, Repr

/-- The channel loop of send_alert (src/alerting-system/alert.py lines
117-137): each attempt either returns a result dictionary, counted when
successful, or raises, in which case the exception text is captured as that
channel result and nothing is counted. -/
def channel_loop (attempt : AlertChannel → Except String DeliveryResult) :
    List AlertChannel → List (String × DeliveryResult) → Nat →
    List (String × DeliveryResult) × Nat
  | [], results, total_sent => (results, total_sent)
  | channel :: rest, results, total_sent =>
    match attempt channel with
    | .ok r =>
      channel_loop attempt rest (dictUpsert results channel.value r)
        (total_sent + if r.success then 1 else 0)
    | .error e =>
      channel_loop attempt rest
        (dictUpsert results channel.value { success := false, error := some e, message := none })
        total_sent

/-- src/alerting-system/alert.py lines 85-154, AlertingSystem.send_alert:
rate-limit early return, default-channel resolution when none are supplied,
channel fan-out, success aggregation as total_sent above zero, and tracking
of the key on success.  attempt abstracts _send_to_channel together with the
possibility of it raising (the except branch of the loop). -/
def send_alert (cfg : AlertConfig) (attempt : AlertChannel → Except String DeliveryResult)
    (sent_alerts : List (String × ℚ)) (current_time : ℚ) (alert : Alert)
    (channels_arg : Option (List AlertChannel)) :
    SendAlertResult × List (String × ℚ) :=
  if is_rate_limited sent_alerts current_time alert then
    ({ rate_limited := true, channels := [], success := false, total_sent := 0 }, sent_alerts)
  else
    let channels := channels_arg.getD (get_default_channels cfg alert.severity)
    let looped := channel_loop attempt channels [] 0
    let success := decide (looped.2 > 0)
    let sent' := if success then track_sent_alert sent_alerts current_time alert else sent_alerts
    ({ rate_limited := false, channels := looped.1, success := success, total_sent := looped.2 },
      sent')

/-- The attempt function the real system runs: _send_to_channel itself never
raises, so every attempt is an ok result. -/
def system_attempt (cfg : AlertConfig) (transport : AlertChannel → Except String Unit)
    (alert : Alert) (channel : AlertChannel) : Except String DeliveryResult :=
  .ok (send_to_channel cfg transport alert channel)

/-- The per-channel result as send_alert records it: the returned dictionary,
or the captured exception text as a failure. -/
def attempt_result (attempt : AlertChannel → Except String DeliveryResult)
    (channel : AlertChannel) : DeliveryResult :=
  match attempt channel with
  | .ok r => r
  | .error e => { success := false, error := some e, message := none }

/-
  Concrete inputs used by the scenario theorems, the counterexamples and the
  witnesses.
-/

/-- The seriesA (zabbix) record of end-to-end scenario A. -/
def zA : ZabbixRecord := { lastclock := some 1005, lastvalue := some "42" }

/-- The seriesB (hyphenmon) record of end-to-end scenario A. -/
def hA : HyphenmonRecord :=
  { timestamp := some 1000, response_time_ms := none, error_rate := some (9/10) }

/-- The one correlated record scenario A produces with window 10. -/
def pairA : CorrelatedRecord :=
  { zabbix := zA, hyphenmon := hA, correlation_timestamp := 0, correlation_window := 10 }

/-- Scenario A run through the correlation engine. -/
def scenarioA_pairs : List CorrelatedRecord := correlate_datasets 10 0 [zA] [hA]

/-- Scenario A run through the anomaly detection engine. -/
def scenarioA_events : List AnomalyResult := detect_anomalies_batch 0 scenarioA_pairs

/-- The one anomaly event scenario A produces. -/
def eventA : AnomalyResult :=
  { timestamp := 0, correlated_data := pairA, alerts := ["High error rate in app!"],
    severity := "CRITICAL", confidence := 7/10 }

/-- A correlated record whose error rate sits exactly on the 0.8 band
boundary. -/
def recC2 : CorrelatedRecord :=
  { zabbix := zA, hyphenmon := { hA with error_rate := some (4/5) },
    correlation_timestamp := 0, correlation_window := 10 }

/-- A zabbix record 15 seconds away from the hA timestamp: within a
configured window of 20 but outside the hard-coded tolerance of correlate. -/
def zC1 : ZabbixRecord := { lastclock := some 1015, lastvalue := some "42" }

/-- An alert history holding 100 entries with keys LOW_0 .. LOW_99, recorded
at times 0 .. 99. -/
def histC5 : List (String × Int) :=
  (List.range 100).map (fun i => ("LOW_" ++ toString i, (i : Int)))

/-- A CRITICAL anomaly with timestamp 5, so its key CRITICAL_5 sorts before
every LOW_i key. -/
def anomalyC5 : AnomalyResult :=
  { timestamp := 5, correlated_data := pairA, alerts := ["High error rate in app!"],
    severity := "CRITICAL", confidence := 7/10 }

/-- A configuration with every channel enabled. -/
def cfgW : AlertConfig :=
  { email_enabled := true, slack_enabled := true, webhook_enabled := true }

/-- A configuration with every channel disabled. -/
def cfgOff : AlertConfig :=
  { email_enabled := false, slack_enabled := false, webhook_enabled := false }

/-- A concrete alert keyed svcA_X, as in rate-limit scenario D. -/
def alertW : Alert :=
  { title := "X", message := "test", severity := .high, source := "svcA", timestamp := 0 }

/-- An attempt function whose every channel returns a successful result. -/
def attemptW : AlertChannel → Except String DeliveryResult :=
  fun _ => .ok { success := true, error := none, message := some "sent" }

/-- A transport whose every network interaction completes. -/
def transportW : AlertChannel → Except String Unit := fun _ => .ok ()

/-- The dispatch result of sending alertW over the email channel at time 0
on an empty history. -/
def resultW : SendAlertResult :=
  { rate_limited := false,
    channels := [("email", { success := true, error := none, message := some "sent" })],
    success := true, total_sent := 1 }

/-- The sent-alerts state after that dispatch. -/
def sentW : List (String × ℚ) := [("svcA_X", 0)]

/-
  Helper lemmas: reduction of the truthiness tests, association-list
  dictionary laws, channel-loop laws, and evaluations of the scenario
  definitions.
-/

lemma truthyInt_none : truthyInt none = false := rfl

lemma truthyInt_some (t : Int) : truthyInt (some t) = (t != 0) := rfl

lemma truthyQ_none : truthyQ none = false := rfl

lemma truthyQ_some (q : ℚ) : truthyQ (some q) = (q != 0) := rfl

lemma truthyStr_none : truthyStr none = false := rfl

lemma truthyStr_some (s : String) : truthyStr (some s) = (s != "") := rfl

lemma truthyInt_iff (o : Option Int) : truthyInt o = true ↔ ∃ t, o = some t ∧ t ≠ 0 := by
  cases o <;> simp [truthyInt]

variable {α : Type}

lemma replace_pred_eq (k : String) (v : α) :
    ((fun (e : String × α) => e.1 == k) ∘ (fun e => if e.1 == k then (k, v) else e)) =
      (fun (e : String × α) => e.1 == k) := by
  funext e
  by_cases h : e.1 = k <;> simp [h]

lemma replace_pred_eq_other (k k' : String) (v : α) (hkk : k' ≠ k) :
    ((fun (e : String × α) => e.1 == k') ∘ (fun e => if e.1 == k then (k, v) else e)) =
      (fun (e : String × α) => e.1 == k') := by
  funext e
  by_cases h : e.1 = k
  · have hne : ¬ (k = k') := fun hh => hkk hh.symm
    simp [h, hne]
  · simp [h]

lemma find?_map_replace (d : List (String × α)) (k : String) (v : α) :
    (d.map (fun e => if e.1 == k then (k, v) else e)).find? (fun e => e.1 == k) =
      (d.find? (fun e => e.1 == k)).map (fun _ => (k, v)) := by
  rw [List.find?_map, replace_pred_eq]
  cases hfind : d.find? (fun e => e.1 == k) with
  | none => simp
  | some w =>
    have hw : w.1 = k := by simpa using List.find?_some hfind
    simp [hw]

lemma find?_map_replace_other (d : List (String × α)) (k k' : String) (v : α) (hkk : k' ≠ k) :
    (d.map (fun e => if e.1 == k then (k, v) else e)).find? (fun e => e.1 == k') =
      d.find? (fun e => e.1 == k') := by
  rw [List.find?_map, replace_pred_eq_other k k' v hkk]
  cases hfind : d.find? (fun e => e.1 == k') with
  | none => simp
  | some w =>
    have hw : w.1 = k' := by simpa using List.find?_some hfind
    have hwk : ¬ w.1 = k := by rw [hw]; exact hkk
    simp [hwk]

lemma dictFind_upsert_self (d : List (String × α)) (k : String) (v : α) :
    dictFind (dictUpsert d k v) k = some v := by
  unfold dictUpsert dictFind
  split
  · rename_i hany
    rw [List.any_eq_true] at hany
    obtain ⟨e, he, hek⟩ := hany
    rw [find?_map_replace]
    obtain ⟨w, hw⟩ : ∃ w, d.find? (fun e => e.1 == k) = some w := by
      have hne : d.find? (fun e => e.1 == k) ≠ none := by
        intro hnone
        have := List.find?_eq_none.mp hnone e he
        simp [hek] at this
      exact Option.ne_none_iff_exists'.mp hne
    simp [hw]
  · rename_i hany
    rw [Bool.not_eq_true] at hany
    rw [List.find?_append]
    have hnone : d.find? (fun e => e.1 == k) = none := by
      rw [List.find?_eq_none]
      intro e he
      have := List.any_eq_false.mp hany e he
      simpa using this
    simp [hnone]

lemma dictFind_upsert_other (d : List (String × α)) (k k' : String) (v : α) (h : k' ≠ k) :
    dictFind (dictUpsert d k v) k' = dictFind d k' := by
  unfold dictUpsert dictFind
  split
  · rw [find?_map_replace_other d k k' v h]
  · rw [List.find?_append]
    have hk : ¬ (k = k') := fun hh => h hh.symm
    have hlast : List.find? (fun e => e.1 == k') [(k, v)] = none := by
      simp [hk]
    rw [hlast]
    cases d.find? (fun e => e.1 == k') <;> simp

lemma mem_upsert_val (d : List (String × α)) (k : String) (v : α) :
    ∀ e ∈ dictUpsert d k v, e.1 = k → e.2 = v := by
  intro e he hek
  unfold dictUpsert at he
  split at he
  · rw [List.mem_map] at he
    obtain ⟨a, ha, haa⟩ := he
    by_cases hak : a.1 = k
    · simp [hak] at haa
      rw [← haa]
    · simp [hak] at haa
      rw [← haa] at hek
      exact absurd hek hak
  · rename_i hany
    rw [Bool.not_eq_true] at hany
    rcases List.mem_append.mp he with hd | hlast
    · have := List.any_eq_false.mp hany e hd
      simp [hek] at this
    · simp at hlast
      rw [hlast]

lemma mem_upsert_self (d : List (String × α)) (k : String) (v : α) :
    (k, v) ∈ dictUpsert d k v := by
  unfold dictUpsert
  split
  · rename_i hany
    rw [List.any_eq_true] at hany
    obtain ⟨e, he, hek⟩ := hany
    rw [List.mem_map]
    exact ⟨e, he, by simp [show e.1 = k by simpa using hek]⟩
  · simp

lemma dictFind_filter_val (l : List (String × α)) (k : String) (v : α) (p : String × α → Bool)
    (hall : ∀ e ∈ l, e.1 = k → e.2 = v) (hmem : (k, v) ∈ l) (hp : p (k, v) = true) :
    dictFind (l.filter p) k = some v := by
  induction l with
  | nil => simp at hmem
  | cons a l ih =>
    by_cases hak : a.1 = k
    · have hav : a.2 = v := hall a (by simp) hak
      have haeq : a = (k, v) := by
        obtain ⟨a1, a2⟩ := a
        simp at hak hav
        rw [hak, hav]
      rw [haeq, List.filter_cons, if_pos hp]
      simp [dictFind, List.find?_cons]
    · have hmem' : (k, v) ∈ l := by
        rcases List.mem_cons.mp hmem with heq | h'
        · exact absurd (by rw [← heq]) hak
        · exact h'
      have ih' := ih (fun e he hek => hall e (by simp [he]) hek) hmem'
      rw [List.filter_cons]
      split
      · simpa [dictFind, List.find?_cons, hak] using ih'
      · exact ih'

lemma dictFind_track_self (d : List (String × ℚ)) (t : ℚ) (a : Alert) :
    dictFind (track_sent_alert d t a) (sent_alert_key a) = some t := by
  unfold track_sent_alert
  apply dictFind_filter_val
  · exact mem_upsert_val d (sent_alert_key a) t
  · exact mem_upsert_self d (sent_alert_key a) t
  · simp [rate_limit_window]

lemma track_age_bound (d : List (String × ℚ)) (t : ℚ) (a : Alert) :
    ∀ e ∈ track_sent_alert d t a, t - e.2 < rate_limit_window * 2 := by
  intro e he
  unfold track_sent_alert at he
  have := List.mem_filter.mp he
  simpa using this.2

lemma value_injective : ∀ c c' : AlertChannel, c.value = c'.value → c = c' := by
  intro c c' h
  cases c <;> cases c' <;> first
    | rfl
    | (exfalso; simp [AlertChannel.value] at h)

lemma channel_loop_count (attempt : AlertChannel → Except String DeliveryResult)
    (chs : List AlertChannel) (m : List (String × DeliveryResult)) (n : Nat) :
    (channel_loop attempt chs m n).2 =
      n + chs.countP (fun ch => (attempt_result attempt ch).success) := by
  induction chs generalizing m n with
  | nil => simp [channel_loop]
  | cons c rest ih =>
    unfold channel_loop
    cases hc : attempt c with
    | ok r =>
      rw [ih]
      simp only [List.countP_cons, attempt_result, hc]
      cases r.success
      · simp
      · simp
        omega
    | error e =>
      rw [ih]
      simp only [List.countP_cons, attempt_result, hc]
      simp

lemma channel_loop_preserves (attempt : AlertChannel → Except String DeliveryResult)
    (ch : AlertChannel) (chs : List AlertChannel)
    (m : List (String × DeliveryResult)) (n : Nat)
    (hm : dictFind m ch.value = some (attempt_result attempt ch)) :
    dictFind (channel_loop attempt chs m n).1 ch.value = some (attempt_result attempt ch) := by
  induction chs generalizing m n with
  | nil => simpa [channel_loop]
  | cons c rest ih =>
    unfold channel_loop
    by_cases hv : c.value = ch.value
    · have hcc : c = ch := value_injective c ch hv
      subst hcc
      cases hc : attempt c with
      | ok r =>
        apply ih
        rw [dictFind_upsert_self]
        simp [attempt_result, hc]
      | error e =>
        apply ih
        rw [dictFind_upsert_self]
        simp [attempt_result, hc]
    · cases hc : attempt c with
      | ok r =>
        apply ih
        rwa [dictFind_upsert_other _ _ _ _ (fun hh => hv hh.symm)]
      | error e =>
        apply ih
        rwa [dictFind_upsert_other _ _ _ _ (fun hh => hv hh.symm)]

lemma channel_loop_find (attempt : AlertChannel → Except String DeliveryResult)
    (ch : AlertChannel) (chs : List AlertChannel)
    (m : List (String × DeliveryResult)) (n : Nat) (hch : ch ∈ chs) :
    dictFind (channel_loop attempt chs m n).1 ch.value = some (attempt_result attempt ch) := by
  induction chs generalizing m n with
  | nil => simp at hch
  | cons c rest ih =>
    by_cases hin : ch ∈ rest
    · unfold channel_loop
      cases hc : attempt c with
      | ok r => exact ih _ _ hin
      | error e => exact ih _ _ hin
    · have hceq : ch = c := by
        rcases List.mem_cons.mp hch with h | h
        · exact h
        · exact absurd h hin
      subst hceq
      unfold channel_loop
      cases hc : attempt ch with
      | ok r =>
        apply channel_loop_preserves
        rw [dictFind_upsert_self]
        simp [attempt_result, hc]
      | error e =>
        apply channel_loop_preserves
        rw [dictFind_upsert_self]
        simp [attempt_result, hc]

lemma attempt_result_system (cfg : AlertConfig) (transport : AlertChannel → Except String Unit)
    (alert : Alert) (channel : AlertChannel) :
    attempt_result (system_attempt cfg transport alert) channel =
      send_to_channel cfg transport alert channel := rfl

lemma scenarioA_pairs_eq : scenarioA_pairs = [pairA] := by
  norm_num [scenarioA_pairs, correlate_datasets, correlate, truthyInt_some,
    List.filterMap_cons, zA, hA, pairA]

lemma detect_pairA : detect_anomalies pairA = ["High error rate in app!"] := by
  norm_num [detect_anomalies, pairA, hA]

lemma severity_pairA : calculate_severity pairA ["High error rate in app!"] = "CRITICAL" := by
  norm_num [calculate_severity, pairA, hA]

lemma confidence_pairA : calculate_confidence pairA = 7/10 := by
  unfold calculate_confidence
  have h42 : ¬ (("42" : String) = "") := by decide
  norm_num [pairA, hA, zA, truthyQ_none, truthyStr_some, h42]

lemma scenarioA_events_eq : scenarioA_events = [eventA] := by
  rw [scenarioA_events, scenarioA_pairs_eq]
  unfold detect_anomalies_batch
  simp only [List.filterMap_cons, List.filterMap_nil, detect_pairA, severity_pairA,
    confidence_pairA, List.isEmpty_cons]
  rfl

lemma confidence_ge_half (record : CorrelatedRecord) :
    (1/2 : ℚ) ≤ calculate_confidence record := by
  unfold calculate_confidence
  apply le_min _ (by norm_num)
  split_ifs <;> norm_num

lemma should_send_alert_iff (alert_history : List (String × Int)) (anomaly : AnomalyResult) :
    should_send_alert alert_history anomaly = true ↔
      ((3/10 : ℚ) ≤ anomaly.confidence ∧
        (anomaly.severity = "CRITICAL" ∨ hasKey alert_history (alert_key anomaly) = false)) := by
  unfold should_send_alert
  split_ifs with h1 h2 h3
  · simp only [false_iff, not_and]
    intro hc
    linarith
  · simp only [true_iff]
    exact ⟨le_of_not_lt h1, Or.inl (by simpa using h2)⟩
  · simp only [false_iff, not_and, not_or]
    intro _
    exact ⟨by simpa using h2, by simp [h3]⟩
  · simp only [true_iff]
    exact ⟨le_of_not_lt h1, Or.inr (by simpa using h3)⟩

lemma sendW_eq :
    send_alert cfgW attemptW [] 0 alertW (some [AlertChannel.email]) = (resultW, sentW) := by
  norm_num [send_alert, is_rate_limited, dictFind, sent_alert_key, channel_loop, dictUpsert,
    track_sent_alert, attempt_result, rate_limit_window, AlertChannel.value,
    cfgW, alertW, attemptW, resultW, sentW]
  decide

/-
  The claim theorems.
-/

/-- Claim C1, counterexample to the claim as stated: with a configured window
of 20, both records carry a present timestamp and their difference 15 is
within the window, yet no pair is emitted, because the correlate function
re-checks the difference against its own hard-coded tolerance of 10. -/
theorem C1_counterexample :
    truthyInt hA.timestamp = true ∧ truthyInt zC1.lastclock = true ∧
    |zC1.lastclock.getD 0 - hA.timestamp.getD 0| ≤ 20 ∧
    correlate_datasets 20 0 [zC1] [hA] = [] := by
  refine ⟨rfl, rfl, by norm_num [zC1, hA], ?_⟩
  norm_num [correlate_datasets, correlate, truthyInt_some, zC1, hA, List.filterMap_cons]

/-- Claim C1, amended: for records drawn from the two input lists, a
CorrelatedPair with exactly those two records is emitted if and only if both
carry a truthy (present and nonzero) timestamp and the absolute timestamp
difference is within the configured window AND within the hard-coded
10-second tolerance of the correlate function; a record whose timestamp is
absent, or zero, is silently skipped. -/
theorem C1_pair_emission (correlation_window now : Int)
    (zabbix_data : List ZabbixRecord) (hyphenmon_data : List HyphenmonRecord)
    (z : ZabbixRecord) (h : HyphenmonRecord)
    (hz : z ∈ zabbix_data) (hh : h ∈ hyphenmon_data) :
    (∃ p ∈ correlate_datasets correlation_window now zabbix_data hyphenmon_data,
        p.zabbix = z ∧ p.hyphenmon = h) ↔
      (truthyInt h.timestamp = true ∧ truthyInt z.lastclock = true ∧
        |z.lastclock.getD 0 - h.timestamp.getD 0| ≤ correlation_window ∧
        |z.lastclock.getD 0 - h.timestamp.getD 0| ≤ 10) := by
  constructor
  · rintro ⟨p, hp, hpz, hph⟩
    simp only [correlate_datasets, List.mem_flatMap] at hp
    obtain ⟨h', hh', hp⟩ := hp
    by_cases ht : truthyInt h'.timestamp = true
    · rw [if_pos ht] at hp
      simp only [List.mem_filterMap, List.mem_filter, Bool.and_eq_true,
        decide_eq_true_eq] at hp
      obtain ⟨z', ⟨hz'mem, hz't, hz'w⟩, hcor⟩ := hp
      obtain ⟨t, hts, htz⟩ := (truthyInt_iff _).mp ht
      rw [Option.map_eq_some'] at hcor
      obtain ⟨zh, hzh, hpe⟩ := hcor
      unfold correlate at hzh
      rw [hts] at hzh
      simp only at hzh
      split at hzh
      · rename_i hle
        rw [Option.some.injEq] at hzh
        subst hzh
        have hpz' : p.zabbix = z' := by rw [← hpe]
        have hph' : p.hyphenmon = h' := by rw [← hpe]
        rw [hpz] at hpz'
        rw [hph] at hph'
        subst hpz'
        subst hph'
        refine ⟨ht, hz't, ?_, ?_⟩
        · simpa [hts] using hz'w
        · simpa [hts] using hle
      · exact absurd hzh (by simp)
    · rw [if_neg ht] at hp
      simp at hp
  · rintro ⟨ht, hzc, hw, h10⟩
    refine ⟨{ zabbix := z, hyphenmon := h, correlation_timestamp := now,
              correlation_window := correlation_window }, ?_, rfl, rfl⟩
    simp only [correlate_datasets, List.mem_flatMap]
    refine ⟨h, hh, ?_⟩
    rw [if_pos ht]
    simp only [List.mem_filterMap, List.mem_filter, Bool.and_eq_true, decide_eq_true_eq]
    refine ⟨z, ⟨hz, hzc, hw⟩, ?_⟩
    obtain ⟨t, hts, htz⟩ := (truthyInt_iff _).mp ht
    unfold correlate
    rw [hts]
    simp only
    rw [hts] at h10
    simp only [Option.getD_some] at h10
    rw [if_pos h10]
    simp

/-- Claim C1, witness: at window 10 the scenario A records do produce a
pair. -/
theorem C1_pair_emission_witness :
    ∃ p ∈ correlate_datasets 10 0 [zA] [hA], p.zabbix = zA ∧ p.hyphenmon = hA :=
  (C1_pair_emission 10 0 [zA] [hA] zA hA (by simp) (by simp)).mpr
    ⟨rfl, rfl, by norm_num [zA, hA], by norm_num [zA, hA]⟩

/-- Claim C2, counterexample to the claim as stated: an error-rate indicator
exactly equal to the 0.8 boundary yields HIGH, not CRITICAL, because the
source compares with strict inequality. -/
theorem C2_counterexample :
    recC2.hyphenmon.error_rate.getD 0 ≥ (4/5 : ℚ) ∧
    calculate_severity recC2 ["High error rate in app!"] ≠ "CRITICAL" := by
  constructor
  · norm_num [recC2, hA]
  · have hsev : calculate_severity recC2 ["High error rate in app!"] = "HIGH" := by
      norm_num [calculate_severity, recC2, hA]
    rw [hsev]
    decide

/-- Claim C2, amended: severity is derived from the seriesB error-rate
indicator by ordered threshold bands with strict comparisons: an indicator
above 0.8 yields CRITICAL, above 0.6 yields HIGH, above 0.4 yields MEDIUM,
and anything at or below 0.4 yields LOW; an indicator exactly equal to a band
boundary falls in the lower band. -/
theorem C2_severity_bands (record : CorrelatedRecord) (alerts : List String) :
    ((4/5 : ℚ) < record.hyphenmon.error_rate.getD 0 →
      calculate_severity record alerts = "CRITICAL") ∧
    ((3/5 : ℚ) < record.hyphenmon.error_rate.getD 0 ∧
        record.hyphenmon.error_rate.getD 0 ≤ (4/5 : ℚ) →
      calculate_severity record alerts = "HIGH") ∧
    ((2/5 : ℚ) < record.hyphenmon.error_rate.getD 0 ∧
        record.hyphenmon.error_rate.getD 0 ≤ (3/5 : ℚ) →
      calculate_severity record alerts = "MEDIUM") ∧
    (record.hyphenmon.error_rate.getD 0 ≤ (2/5 : ℚ) →
      calculate_severity record alerts = "LOW") := by
  unfold calculate_severity
  refine ⟨?_, ?_, ?_, ?_⟩
  · intro h
    rw [if_pos h]
  · rintro ⟨h1, h2⟩
    rw [if_neg (by linarith), if_pos h1]
  · rintro ⟨h1, h2⟩
    rw [if_neg (by linarith), if_neg (by linarith), if_pos h1]
  · intro h
    rw [if_neg (by linarith), if_neg (by linarith), if_neg (by linarith)]

/-- Claim C3, counterexample to the claim as stated: the one event of
scenario A has confidence 0.7, not at least 0.8, because the 0.1 bonus keys
on the configured window (10 here), not on the actual timestamp distance. -/
theorem C3_counterexample :
    scenarioA_events.map (fun e => e.confidence) = [7/10] ∧ ¬ ((8/10 : ℚ) ≤ 7/10) := by
  rw [scenarioA_events_eq]
  norm_num [eventA]

/-- Claim C3, amended: on the scenario A inputs, correlation produces exactly
one CorrelatedPair, the scorer flags it and emits one event with severity
CRITICAL and confidence exactly 0.7, and the throttle admits it whatever the
alert history holds, through the CRITICAL bypass. -/
theorem C3_scenarioA :
    scenarioA_pairs.length = 1 ∧
    scenarioA_events.map (fun e => (e.severity, e.confidence)) = [("CRITICAL", (7/10 : ℚ))] ∧
    ∀ alert_history : List (String × Int),
      scenarioA_events.all (fun e => should_send_alert alert_history e) = true := by
  refine ⟨by rw [scenarioA_pairs_eq]; rfl, by rw [scenarioA_events_eq]; norm_num [eventA], ?_⟩
  intro alert_history
  rw [scenarioA_events_eq]
  simp only [List.all_cons, List.all_nil, Bool.and_true]
  norm_num [should_send_alert, eventA]

/-- Claim C4: the throttle admits an event exactly when its confidence is at
least 0.3 and it is either CRITICAL or its severity-timestamp key is not yet
recorded; equivalently, confidence below 0.3 is rejected first, then CRITICAL
is admitted regardless of history, then the de-duplication key decides. -/
theorem C4_throttle_decision (alert_history : List (String × Int)) (anomaly : AnomalyResult) :
    should_send_alert alert_history anomaly = true ↔
      ((3/10 : ℚ) ≤ anomaly.confidence ∧
        (anomaly.severity = "CRITICAL" ∨ hasKey alert_history (alert_key anomaly) = false)) :=
  should_send_alert_iff alert_history anomaly

set_option maxRecDepth 8000 in
/-- Claim C5: the code evicts by lexicographic key order, not by recording
time. On a history of 100 LOW keys recorded at times 0 to 99, recording the
fresh key CRITICAL_5 at time 200 keeps the bound of 100 but evicts the entry
just recorded, the most recent one, while LOW_0, the oldest, survives. -/
theorem C5_eviction_bug :
    (update_alert_history histC5 200 anomalyC5).length = 100 ∧
    hasKey (update_alert_history histC5 200 anomalyC5) "CRITICAL_5" = false ∧
    hasKey (update_alert_history histC5 200 anomalyC5) "LOW_0" = true := by
  decide

/-- Claim C6: after a successful dispatch at time t, the source-title key is
recorded at t and every retained entry is younger than twice the rate-limit
window; any dispatch of the same source and title less than 300 seconds later
returns the rate-limited result with no channel attempts, and one at 300
seconds or later is not rate limited and proceeds to delivery. -/
theorem C6_rate_limit (cfg : AlertConfig)
    (attempt : AlertChannel → Except String DeliveryResult)
    (sent_alerts : List (String × ℚ)) (t : ℚ) (alert : Alert)
    (channels_arg : Option (List AlertChannel)) (r : SendAlertResult)
    (sent' : List (String × ℚ))
    (hsend : send_alert cfg attempt sent_alerts t alert channels_arg = (r, sent'))
    (hsucc : r.success = true) :
    dictFind sent' (sent_alert_key alert) = some t ∧
    (∀ e ∈ sent', t - e.2 < rate_limit_window * 2) ∧
    (∀ (cfg' : AlertConfig) (attempt' : AlertChannel → Except String DeliveryResult)
        (t' : ℚ) (alert' : Alert) (channels' : Option (List AlertChannel)),
        alert'.source = alert.source → alert'.title = alert.title → t' - t < 300 →
        (send_alert cfg' attempt' sent' t' alert' channels').1 =
          { rate_limited := true, channels := [], success := false, total_sent := 0 }) ∧
    (∀ (cfg' : AlertConfig) (attempt' : AlertChannel → Except String DeliveryResult)
        (t' : ℚ) (alert' : Alert) (channels' : Option (List AlertChannel)),
        alert'.source = alert.source → alert'.title = alert.title → 300 ≤ t' - t →
        (send_alert cfg' attempt' sent' t' alert' channels').1.rate_limited = false) := by
  have hsent : sent' = track_sent_alert sent_alerts t alert := by
    unfold send_alert at hsend
    split at hsend
    · rw [Prod.mk.injEq] at hsend
      rw [← hsend.1] at hsucc
      simp at hsucc
    · simp only [Prod.mk.injEq] at hsend
      obtain ⟨hr, hs⟩ := hsend
      rw [← hr] at hsucc
      simp only at hsucc
      rw [← hs]
      rw [if_pos hsucc]
  subst hsent
  refine ⟨dictFind_track_self sent_alerts t alert, track_age_bound sent_alerts t alert, ?_, ?_⟩
  · intro cfg' attempt' t' alert' channels' hsrc htitle hlt
    have hkey : sent_alert_key alert' = sent_alert_key alert := by
      unfold sent_alert_key
      rw [hsrc, htitle]
    have hrl : is_rate_limited (track_sent_alert sent_alerts t alert) t' alert' = true := by
      unfold is_rate_limited
      rw [hkey, dictFind_track_self]
      simpa [rate_limit_window] using hlt
    unfold send_alert
    rw [if_pos hrl]
  · intro cfg' attempt' t' alert' channels' hsrc htitle hge
    have hkey : sent_alert_key alert' = sent_alert_key alert := by
      unfold sent_alert_key
      rw [hsrc, htitle]
    have hrl : is_rate_limited (track_sent_alert sent_alerts t alert) t' alert' = false := by
      unfold is_rate_limited
      rw [hkey, dictFind_track_self]
      simp [rate_limit_window]
      linarith
    unfold send_alert
    rw [if_neg (by rw [hrl]; exact Bool.false_ne_true)]

/-- Claim C6, witness: dispatching alertW succeeds at time 0; the same key at
time 100 is rate limited with no channel attempts. -/
theorem C6_rate_limit_witness :
    dictFind sentW (sent_alert_key alertW) = some 0 ∧
    (send_alert cfgW attemptW sentW 100 alertW (some [AlertChannel.email])).1 =
      { rate_limited := true, channels := [], success := false, total_sent := 0 } := by
  have h := C6_rate_limit cfgW attemptW [] 0 alertW (some [AlertChannel.email]) resultW sentW
    sendW_eq rfl
  exact ⟨h.1, h.2.2.1 cfgW attemptW 100 alertW (some [AlertChannel.email]) rfl rfl (by norm_num)⟩

/-- Claim C7: when not rate limited, the aggregated success flag of a
dispatch over requested channels is true exactly when at least one channel
attempt returned a successful result, and every requested channel, whether
its attempt returned a failure or raised, appears in the per-channel results
with its own outcome, the raise captured as a failure result. -/
theorem C7_fanout (cfg : AlertConfig)
    (attempt : AlertChannel → Except String DeliveryResult)
    (sent_alerts : List (String × ℚ)) (current_time : ℚ) (alert : Alert)
    (requested : List AlertChannel)
    (hrl : is_rate_limited sent_alerts current_time alert = false) :
    ((send_alert cfg attempt sent_alerts current_time alert (some requested)).1.success = true ↔
      ∃ ch ∈ requested, (attempt_result attempt ch).success = true) ∧
    (∀ ch ∈ requested,
      dictFind (send_alert cfg attempt sent_alerts current_time alert (some requested)).1.channels
          ch.value =
        some (attempt_result attempt ch)) := by
  have hneg : ¬ is_rate_limited sent_alerts current_time alert = true := by
    rw [hrl]; exact Bool.false_ne_true
  constructor
  · unfold send_alert
    rw [if_neg hneg]
    simp only [Option.getD_some]
    rw [decide_eq_true_eq]
    rw [channel_loop_count]
    rw [Nat.zero_add]
    constructor
    · intro hpos
      have := List.countP_pos_iff.mp hpos
      simpa using this
    · intro ⟨ch, hch, hs⟩
      apply List.countP_pos_iff.mpr
      exact ⟨ch, hch, by simpa using hs⟩
  · intro ch hch
    unfold send_alert
    rw [if_neg hneg]
    simp only [Option.getD_some]
    exact channel_loop_find attempt ch requested [] 0 hch

/-- Claim C7, witness: with email succeeding and sms failing, the aggregate
success of the dispatch is true. -/
theorem C7_fanout_witness :
    (send_alert cfgW (system_attempt cfgW transportW alertW) [] 0 alertW
        (some [AlertChannel.email, AlertChannel.sms])).1.success = true := by
  have h := C7_fanout cfgW (system_attempt cfgW transportW alertW) [] 0 alertW
    [AlertChannel.email, AlertChannel.sms] rfl
  exact h.1.mpr ⟨AlertChannel.email, by simp,
    by norm_num [attempt_result, system_attempt, send_to_channel, send_email, cfgW, transportW]⟩

/-- Claim C8: confidence lies in the unit interval, and it can only stay
equal or grow, capped at 1, when a previously absent response-time field or
seriesA value field is populated, or when the correlation window is at most
5 seconds. -/
theorem C8_confidence (record : CorrelatedRecord) :
    (0 ≤ calculate_confidence record ∧ calculate_confidence record ≤ 1) ∧
    (∀ v : ℚ, record.hyphenmon.response_time_ms = none →
      calculate_confidence record ≤ calculate_confidence
        { record with hyphenmon := { record.hyphenmon with response_time_ms := some v } }) ∧
    (∀ s : String, record.zabbix.lastvalue = none →
      calculate_confidence record ≤ calculate_confidence
        { record with zabbix := { record.zabbix with lastvalue := some s } }) ∧
    (∀ w : Int, w ≤ 5 →
      calculate_confidence record ≤ calculate_confidence
        { record with correlation_window := w }) := by
  refine ⟨⟨le_trans (by norm_num) (confidence_ge_half record), ?_⟩, ?_, ?_, ?_⟩
  · unfold calculate_confidence
    exact min_le_right _ _
  · intro v hnone
    unfold calculate_confidence
    apply min_le_min _ le_rfl
    simp only [hnone, truthyQ_none, truthyQ_some, Bool.false_eq_true, if_false]
    have hb : (0:ℚ) ≤ (if (v != 0) = true then (1/5:ℚ) else 0) := by
      split_ifs <;> norm_num
    linarith
  · intro s hnone
    unfold calculate_confidence
    apply min_le_min _ le_rfl
    simp only [hnone, truthyStr_none, truthyStr_some, Bool.false_eq_true, if_false]
    have hb : (0:ℚ) ≤ (if (s != "") = true then (1/5:ℚ) else 0) := by
      split_ifs <;> norm_num
    linarith
  · intro w hw
    unfold calculate_confidence
    apply min_le_min _ le_rfl
    simp only
    rw [if_pos hw]
    have hb : (if record.correlation_window ≤ 5 then (1/10:ℚ) else 0) ≤ 1/10 := by
      split_ifs <;> norm_num
    linarith

/-- Claim C9: every event the detection engine emits has confidence at least
0.5, hence never below 0.3, so for such events the throttle decision reduces
to the CRITICAL bypass and the de-duplication key alone: the low-confidence
rejection branch is unreachable for pipeline-produced events. -/
theorem C9_confidence_floor (now : Int) (records : List CorrelatedRecord) (a : AnomalyResult)
    (ha : a ∈ detect_anomalies_batch now records) :
    ((1/2 : ℚ) ≤ a.confidence ∧ ¬ (a.confidence < 3/10)) ∧
    ∀ alert_history : List (String × Int),
      (should_send_alert alert_history a = true ↔
        (a.severity = "CRITICAL" ∨ hasKey alert_history (alert_key a) = false)) := by
  have hconf : (1/2 : ℚ) ≤ a.confidence := by
    simp only [detect_anomalies_batch, List.mem_filterMap] at ha
    obtain ⟨r, hr, hcond⟩ := ha
    split at hcond
    · exact absurd hcond (by simp)
    · rw [Option.some.injEq] at hcond
      rw [← hcond]
      exact confidence_ge_half r
  refine ⟨⟨hconf, by intro hlt; linarith⟩, ?_⟩
  intro alert_history
  rw [should_send_alert_iff]
  have h310 : (3/10 : ℚ) ≤ a.confidence := by linarith
  simp [h310]

/-- Claim C9, witness: the scenario A event has confidence at least 0.5. -/
theorem C9_confidence_floor_witness : (1/2 : ℚ) ≤ eventA.confidence := by
  have hm : eventA ∈ detect_anomalies_batch 0 scenarioA_pairs := by
    have h : detect_anomalies_batch 0 scenarioA_pairs = [eventA] := scenarioA_events_eq
    rw [h]
    simp
  exact (C9_confidence_floor 0 scenarioA_pairs eventA hm).1.1

/-- Claim C10: a channel that is disabled in configuration, and the SMS
channel always, returns a failure result with the corresponding error text
instead of raising, and when requested it still appears among the
per-channel results of the dispatch with that failure result. -/
theorem C10_stub_channels (cfg : AlertConfig)
    (transport : AlertChannel → Except String Unit) (alert : Alert)
    (channel : AlertChannel) (sent_alerts : List (String × ℚ)) (current_time : ℚ)
    (requested : List AlertChannel) (err : String)
    (hstub : (channel = .email ∧ cfg.email_enabled = false ∧ err = "Email not configured") ∨
             (channel = .slack ∧ cfg.slack_enabled = false ∧ err = "Slack not configured") ∨
             (channel = .webhook ∧ cfg.webhook_enabled = false ∧ err = "Webhook not configured") ∨
             (channel = .sms ∧ err = "SMS integration not implemented"))
    (hrl : is_rate_limited sent_alerts current_time alert = false)
    (hmem : channel ∈ requested) :
    send_to_channel cfg transport alert channel =
      { success := false, error := some err, message := none } ∧
    dictFind ((send_alert cfg (system_attempt cfg transport alert) sent_alerts current_time
          alert (some requested)).1.channels) channel.value =
      some { success := false, error := some err, message := none } := by
  have hstub' : send_to_channel cfg transport alert channel =
      { success := false, error := some err, message := none } := by
    rcases hstub with ⟨rfl, hen, rfl⟩ | ⟨rfl, hen, rfl⟩ | ⟨rfl, hen, rfl⟩ | ⟨rfl, rfl⟩
    · simp [send_to_channel, send_email, hen]
    · simp [send_to_channel, send_slack, hen]
    · simp [send_to_channel, send_webhook, hen]
    · simp [send_to_channel, send_sms]
  refine ⟨hstub', ?_⟩
  have hneg : ¬ is_rate_limited sent_alerts current_time alert = true := by
    rw [hrl]; exact Bool.false_ne_true
  unfold send_alert
  rw [if_neg hneg]
  simp only [Option.getD_some]
  rw [channel_loop_find _ _ _ _ _ hmem]
  rw [attempt_result_system, hstub']

/-- Claim C10, witness: with every channel disabled, an explicit email
request returns the not-configured failure result. -/
theorem C10_stub_channels_witness :
    send_to_channel cfgOff transportW alertW AlertChannel.email =
      { success := false, error := some "Email not configured", message := none } :=
  (C10_stub_channels cfgOff transportW alertW .email [] 0 [.email] "Email not configured"
    (Or.inl ⟨rfl, rfl, rfl⟩) rfl (by simp)).1

end MonitoringPlatform
